import Mathlib

/-!
Verification of the website-audit script (`src/index.js`).

The development shallowly embeds the pure computation of the auditor:
JS numbers that carry scores are modelled as `ℚ` (all score arithmetic in
the source stays well inside the exactly-representable range), JS `null`
and `undefined` become `Option`, a thrown exception becomes
`Except String`, and every browser / network interaction is a parameter
of the embedded function (the outcome the page produced), so that the
script's own control flow and data flow are reproduced faithfully.
-/
/- ### JS string and array primitives -/

/-- Character-list matching: `leadMatch pat s` is true when `pat` occurs at
the very front of `s` (helper for `containsSeq`). -/
def leadMatch : List Char → List Char → Bool
  | [], _ => true
  | _ :: _, [] => false
  | a :: as, b :: bs => a == b && leadMatch as bs

/-- Substring occurrence on character lists (helper for `jsIncludes`). -/
def containsSeq (pat : List Char) : List Char → Bool
  | [] => leadMatch pat []
  | b :: bs => leadMatch pat (b :: bs) || containsSeq pat bs

/-- Model of `String.prototype.includes`: `jsIncludes s pat` is true when
`pat` occurs as a contiguous substring of `s`. -/
def jsIncludes (s pat : String) : Bool :=
  containsSeq pat.toList s.toList

/-- JS truthiness of a string-or-null value: `null` and the empty string
are falsy, every other string is truthy. -/
def jsTruthy : Option String → Bool
  | none => false
  | some s => s ≠ ""

/-- Model of the JS idiom `v || null` on a string-or-undefined value:
a falsy value (absent or empty string) is replaced by `null`. -/
def jsOrNull (v : Option String) : Option String :=
  if jsTruthy v then v else none

/-- Model of the JS idiom `v || d` on a string-or-null value with a string
default: a falsy value is replaced by the default. -/
def jsOrDefault (v : Option String) (d : String) : String :=
  match v with
  | none => d
  | some s => if s = "" then d else s

/-- Decimal digit character (helper for `natDecimal`). -/
def digitChar (d : Nat) : Char :=
  Char.ofNat (48 + d)

/-- Model of the JS number-to-string conversion for a non-negative integer
(as produced by a template literal such as `` `test value ${i}` `` in
`src/index.js` line 518): the usual decimal numeral. -/
def natDecimal (n : Nat) : String :=
  if n = 0 then "0" else String.mk (((Nat.digits 10 n).map digitChar).reverse)

/-- Numeric value of a decimal digit character (proof helper). -/
def digitVal (c : Char) : Nat :=
  c.toNat - 48

/-- Value of a big-endian decimal character string (proof helper used to
invert `natDecimal`). -/
def decValue (cs : List Char) : Nat :=
  cs.foldl (fun acc c => 10 * acc + digitVal c) 0

/-- Character list remaining after the first `://` (helper for
`urlHostname`). -/
def afterSchemeSep : List Char → Option (List Char)
  | ':' :: '/' :: '/' :: rest => some rest
  | _ :: rest => afterSchemeSep rest
  | [] => none

/-- Model of `new URL(u).hostname` (used at `src/index.js` lines 574-575)
for the URLs the auditor handles: the characters after the scheme
separator up to the first delimiter, lowercased. (Credentials in the
authority part are not modelled; the audited URLs carry none.) -/
def urlHostname (url : String) : String :=
  let cs :=
    match afterSchemeSep url.toList with
    | some rest => rest
    | none => url.toList
  String.mk ((cs.takeWhile fun c => !(c == '/' || c == ':' || c == '?' || c == '#')).map Char.toLower)

/-- Index-passing map starting at a given index (helper for `jsMapIdx`). -/
def mapIdxFrom {α β : Type} (f : Nat → α → β) : Nat → List α → List β
  | _, [] => []
  | i, a :: as => f i a :: mapIdxFrom f (i + 1) as

/-- Model of `Array.prototype.map` with the callback receiving the element
index as its second argument. -/
def jsMapIdx {α β : Type} (f : Nat → α → β) (l : List α) : List β :=
  mapIdxFrom f 0 l

/-- Model of `Math.round` on the exact rational carried by a JS number:
round half away from zero upward, that is `⌊x + 1/2⌋`. -/
def mathRound (x : ℚ) : ℤ :=
  ⌊x + 1/2⌋

/-- Fuel-indexed worker for `chunkArray`; the fuel is always instantiated
with the length of the array, which bounds the number of chunks. -/
def chunkArrayAux {α : Type} : Nat → List α → Nat → List (List α)
  | _, [], _ => []
  | 0, _ :: _, _ => []
  | fuel + 1, a :: rest, size =>
      (a :: rest).take size :: chunkArrayAux fuel ((a :: rest).drop size) size

/-- Model of `chunkArray` (`src/index.js` lines 806-812): slice the array
into consecutive chunks of `size` elements, the last chunk possibly
shorter. The source loop `for (i = 0; i < n; i += size)` never terminates
for `size = 0`; every call site passes the positive `concurrency` limit,
and all theorems assume `0 < size`. -/
def chunkArray {α : Type} (array : List α) (size : Nat) : List (List α) :=
  chunkArrayAux array.length array size

/-- Model of `Set.prototype.add` on a set of primitive strings: value
equality, insertion order preserved. -/
def setAdd (l : List String) (s : String) : List String :=
  if l.contains s then l else l ++ [s]

/-- Lookup of a key in a JS object modelled as an insertion-ordered
association list (`obj[k]`, `undefined` becoming `none`). -/
def objFind {β : Type} : List (String × β) → String → Option β
  | [], _ => none
  | p :: rest, k => if p.1 = k then some p.2 else objFind rest k

/-- Update of an existing key in a JS object modelled as an
insertion-ordered association list (`obj[k] = v` for a present key: the
insertion position is unchanged). -/
def objSet {β : Type} : List (String × β) → String → β → List (String × β)
  | [], _, _ => []
  | p :: rest, k, v => (if p.1 = k then (p.1, v) else p) :: objSet rest k v

/- ### Security-header probe (`analyzeSecurity`, `src/index.js` lines 118-192) -/

/-- Outcome of an external interaction a probe performs: the data the
browser or network produced, or the exception it threw. -/
inductive ProbeOutcome (α : Type) where
  | ok (a : α)
  | err (msg : String)

/-- Security recommendation entry (`src/index.js` lines 178-181). -/
structure Recommendation where
  priority : String
  message : String
deriving DecidableEq

/-- Result shape of `analyzeSecurity` (`src/index.js` lines 140-144): the
seven-entry header map (entry values null when the response lacked the
header), the weighted score, and the recommendation list. -/
structure SecurityReport where
  headers : List (String × Option String)
  score : Nat
  recommendations : List Recommendation
deriving DecidableEq

/-- Case-normalised lookup of a response header, as axios exposes
lower-cased header names (`response.headers[k]`). -/
def headerLookup (hs : List (String × String)) (k : String) : Option String :=
  objFind hs k

/-- The `securityHeaders` object built at `src/index.js` lines 128-136:
each of the seven canonical names mapped to the response value, with a
missing or empty value coerced to null by `|| null`. -/
def buildSecurityHeaders (hs : List (String × String)) : List (String × Option String) :=
  [("Strict-Transport-Security", jsOrNull (headerLookup hs "strict-transport-security")),
   ("Content-Security-Policy", jsOrNull (headerLookup hs "content-security-policy")),
   ("X-Frame-Options", jsOrNull (headerLookup hs "x-frame-options")),
   ("X-Content-Type-Options", jsOrNull (headerLookup hs "x-content-type-options")),
   ("Referrer-Policy", jsOrNull (headerLookup hs "referrer-policy")),
   ("Permissions-Policy", jsOrNull (headerLookup hs "permissions-policy")),
   ("X-XSS-Protection", jsOrNull (headerLookup hs "x-xss-protection"))]

/-- The `weights` table of `_calculateSecurityScore`
(`src/index.js` lines 156-164). -/
def securityWeights : List (String × Nat) :=
  [("Strict-Transport-Security", 20),
   ("Content-Security-Policy", 25),
   ("X-Frame-Options", 15),
   ("X-Content-Type-Options", 15),
   ("Referrer-Policy", 10),
   ("Permissions-Policy", 10),
   ("X-XSS-Protection", 5)]

/-- Weight of one header name (`weights[header]`; the constructed header
map only ever carries the seven weighted names, so the default is never
consulted by the program). -/
def weightOf (header : String) : Nat :=
  (objFind securityWeights header).getD 0

/-- Model of `_calculateSecurityScore` (`src/index.js` lines 155-172):
fold over the entries of the header map, adding the header weight
whenever the entry value is truthy. -/
def calculateSecurityScore (headers : List (String × Option String)) : Nat :=
  headers.foldl (fun score e => if jsTruthy e.2 then score + weightOf e.1 else score) 0

/-- Model of `_generateSecurityRecommendations`
(`src/index.js` lines 174-192). -/
def generateSecurityRecommendations (headers : List (String × Option String)) : List Recommendation :=
  (if ¬ jsTruthy (objFind headers "Strict-Transport-Security" |>.join) then
    [⟨"High", "Implement HSTS to enforce HTTPS connections"⟩] else []) ++
  (if ¬ jsTruthy (objFind headers "Content-Security-Policy" |>.join) then
    [⟨"High", "Implement Content Security Policy to prevent XSS attacks"⟩] else [])

/-- Model of `analyzeSecurity` (`src/index.js` lines 118-153): on a
response, build the header map, score it and derive recommendations; on
any thrown error return the zero-valued fallback
`{ headers: {}, score: 0, recommendations: [] }`. -/
def analyzeSecurity (o : ProbeOutcome (List (String × String))) : SecurityReport :=
  match o with
  | .ok hs =>
      let securityHeaders := buildSecurityHeaders hs
      { headers := securityHeaders,
        score := calculateSecurityScore securityHeaders,
        recommendations := generateSecurityRecommendations securityHeaders }
  | .err _ => { headers := [], score := 0, recommendations := [] }

/- ### Third-party services probe (`analyzeThirdPartyServices`, `src/index.js` lines 557-611) -/

/-- One captured network request (`src/index.js` lines 564-568): target
URL, puppeteer resource type, HTTP method. -/
structure NetRequest where
  url : String
  type : String
  method : String
deriving DecidableEq

/-- The request listener (`src/index.js` lines 563-568) adds a fresh
object literal to a JS `Set` for every request event. `Set` membership on
objects is reference identity and every literal is a distinct object, so
each add appends and `Array.from` returns every captured occurrence in
insertion order. -/
def capturedRequests (stream : List NetRequest) : List NetRequest :=
  stream

/-- The category assignments of `src/index.js` lines 579-583: a chain of
independent `if` statements overwriting the `category` variable in turn
(not an `else if` chain), the last matching fragment rule winning. -/
def categorizeDomain (domain : String) : String :=
  let category := "unknown"
  let category := if jsIncludes domain "google" then "analytics" else category
  let category := if jsIncludes domain "facebook" || jsIncludes domain "fb" then "social" else category
  let category := if jsIncludes domain "ads" || jsIncludes domain "doubleclick" then "advertising" else category
  let category := if jsIncludes domain "cdn" then "cdn" else category
  category

/-- Classification written the way the specification describes it, with
the four fragment rules checked in the listed priority order and the
first match winning (`google` before `facebook`/`fb` before
`ads`/`doubleclick` before `cdn`); used to compare the specified rule
order against `categorizeDomain`. -/
def categorizeFirstMatch (domain : String) : String :=
  if jsIncludes domain "google" then "analytics"
  else if jsIncludes domain "facebook" || jsIncludes domain "fb" then "social"
  else if jsIncludes domain "ads" || jsIncludes domain "doubleclick" then "advertising"
  else if jsIncludes domain "cdn" then "cdn"
  else "unknown"

/-- Classification with the same rule list in the reverse priority order,
the last textual rule of the source winning; `categorizeDomain` provably
coincides with this. -/
def categorizeLastMatch (domain : String) : String :=
  if jsIncludes domain "cdn" then "cdn"
  else if jsIncludes domain "ads" || jsIncludes domain "doubleclick" then "advertising"
  else if jsIncludes domain "facebook" || jsIncludes domain "fb" then "social"
  else if jsIncludes domain "google" then "analytics"
  else "unknown"

/-- Per-host aggregation entry (`src/index.js` lines 585-592): the
category fixed when the host is first seen, a running request count, and
the set of resource types observed (a JS `Set` of strings, value-keyed). -/
structure ServiceAcc where
  category : String
  requestCount : Nat
  types : List String
deriving DecidableEq

/-- One step of the `reduce` at `src/index.js` lines 573-595: skip
first-party requests; otherwise create the host entry on first sight
(category computed from the host) and bump its request count and type
set. -/
def foldRequest (mainDomain : String) (acc : List (String × ServiceAcc)) (request : NetRequest) :
    List (String × ServiceAcc) :=
  let domain := urlHostname request.url
  if domain ≠ mainDomain then
    match objFind acc domain with
    | none =>
        acc ++ [(domain,
          { category := categorizeDomain domain,
            requestCount := 1,
            types := setAdd [] request.type })]
    | some s =>
        objSet acc domain
          { s with requestCount := s.requestCount + 1, types := setAdd s.types request.type }
  else acc

/-- The full `reduce` of `src/index.js` lines 573-595 over the captured
request list, starting from the empty accumulator object. -/
def buildThirdPartyServices (reqs : List NetRequest) (url : String) :
    List (String × ServiceAcc) :=
  reqs.foldl (foldRequest (urlHostname url)) []

/-- The `categorySummary` reduce of `src/index.js` lines 599-602: count
the per-host entries per category label. -/
def buildCategorySummary (services : List (String × ServiceAcc)) : List (String × Nat) :=
  services.foldl
    (fun acc p =>
      match objFind acc p.2.category with
      | none => acc ++ [(p.2.category, 1)]
      | some n => objSet acc p.2.category (n + 1))
    []

/-- Result shape of `analyzeThirdPartyServices`
(`src/index.js` lines 597-604). -/
structure ThirdPartyReport where
  totalThirdPartyDomains : Nat
  categorySummary : List (String × Nat)
  details : List (String × ServiceAcc)
deriving DecidableEq

/-- Model of `analyzeThirdPartyServices` (`src/index.js` lines 557-611):
on successful navigation aggregate the captured request stream; on any
thrown error (navigation failure included) the catch block at lines
605-607 returns `null`, modelled as `none`. -/
def analyzeThirdPartyServices (nav : ProbeOutcome (List NetRequest)) (url : String) :
    Option ThirdPartyReport :=
  match nav with
  | .ok stream =>
      let thirdPartyServices := buildThirdPartyServices (capturedRequests stream) url
      some
        { totalThirdPartyDomains := thirdPartyServices.length,
          categorySummary := buildCategorySummary thirdPartyServices,
          details := thirdPartyServices }
  | .err _ => none

/-- Request count recorded for a host in the accumulator, zero when the
host has no entry. -/
def requestCountOf (acc : List (String × ServiceAcc)) (h : String) : Nat :=
  ((objFind acc h).map (·.requestCount)).getD 0

/- ### Interaction sweep (`analyzeButtonsAndFields`, `src/index.js` lines 463-556) -/

/-- Per-button record built by the `$$eval` at `src/index.js` lines
471-478 and mutated by the click handler at lines 493-503. -/
structure ButtonRecord where
  index : Nat
  text : String
  success : Bool
  error : Option String
deriving DecidableEq

/-- Raw attributes of one `input` element as read inside the page by the
`$$eval` at `src/index.js` lines 480-490 (`getAttribute` returning null
for an absent attribute). -/
structure InputSource where
  typeAttr : Option String
  placeholderAttr : Option String
  value : String
deriving DecidableEq

/-- Per-input record built by the `$$eval` at `src/index.js` lines
480-490 and mutated by the fill handler at lines 512-525. -/
structure InputRecord where
  index : Nat
  type : String
  placeholder : String
  valueBefore : String
  valueAfter : Option String
  success : Bool
  error : Option String
deriving DecidableEq

/-- The button records produced by the discovery `$$eval`
(`src/index.js` lines 471-478): index, text, `success: false`,
`error: null`. -/
def initButtons (texts : List String) : List ButtonRecord :=
  jsMapIdx (fun index text =>
    { index := index, text := text, success := false, error := none }) texts

/-- The input records produced by the discovery `$$eval`
(`src/index.js` lines 480-490), with the `|| 'text'` and
`|| 'No placeholder'` defaults. -/
def initInputs (srcs : List InputSource) : List InputRecord :=
  jsMapIdx (fun index s =>
    { index := index,
      type := jsOrDefault s.typeAttr "text",
      placeholder := jsOrDefault s.placeholderAttr "No placeholder",
      valueBefore := s.value,
      valueAfter := none,
      success := false,
      error := none }) srcs

/-- Effect of one button-click promise (`src/index.js` lines 493-503) on
its own record: the in-page click either succeeds (`success = true`) or
throws, in which case the message is caught and stored in `error`. The
outcome of the click at a DOM index is a parameter. -/
def applyClick (clickOutcome : Nat → Option String) (b : ButtonRecord) : ButtonRecord :=
  match clickOutcome b.index with
  | none => { b with success := true }
  | some msg => { b with error := some msg }

/-- The synthetic fill string `` `test value ${i}` `` of
`src/index.js` line 518, where `i` is the position of the input in the
discovery order. -/
def fillValue (i : Nat) : String :=
  "test value " ++ natDecimal i

/-- Effect of one input-fill promise (`src/index.js` lines 512-525) on
its own record: on success the record stores the synthetic fill string in
`valueAfter` and sets `success`; a thrown message is caught and stored in
`error`. -/
def applyFill (fillOutcome : Nat → Option String) (i : Nat) (input : InputRecord) : InputRecord :=
  match fillOutcome input.index with
  | none => { input with valueAfter := some (fillValue i), success := true }
  | some msg => { input with error := some msg }

/-- The batched button pass of `src/index.js` lines 493-509: one promise
per button (each settles its own record and never rejects), split by
`chunkArray` into batches that are awaited strictly in sequence; the
final array is the concatenation of the settled batches. -/
def runButtonSweep (clickOutcome : Nat → Option String) (concurrency : Nat)
    (buttons : List ButtonRecord) : List ButtonRecord :=
  (chunkArray (buttons.map (applyClick clickOutcome)) concurrency).flatten

/-- The batched input pass of `src/index.js` lines 512-531, analogous to
`runButtonSweep` with the positional index feeding the fill string. -/
def runInputSweep (fillOutcome : Nat → Option String) (concurrency : Nat)
    (inputs : List InputRecord) : List InputRecord :=
  (chunkArray (jsMapIdx (applyFill fillOutcome) inputs) concurrency).flatten

/-- The static CORS structure built by the evaluate at
`src/index.js` lines 534-543: every method mapped to
`allowed: document.createElement('div') ? true : false`, which is always
true. -/
def corsProbe : List (String × Bool) :=
  ["GET", "POST", "PUT", "DELETE", "OPTIONS"].map fun method => (method, true)

/-- Result shape of `analyzeButtonsAndFields`
(`src/index.js` lines 545-549). -/
structure StressResult where
  buttons : List ButtonRecord
  inputFields : List InputRecord
  cors : List (String × Bool)
deriving DecidableEq

/-- Outcomes of the browser interactions `analyzeButtonsAndFields`
performs, in program order. `newPage` is awaited at
`src/index.js` line 465, before the `try` block opens at line 467. -/
structure SweepPage where
  newPage : Except String Unit
  setUserAgent : Except String Unit
  goto : Except String Unit
  buttonsEval : Except String (List String)
  inputsEval : Except String (List InputSource)
  clickOutcome : Nat → Option String
  fillOutcome : Nat → Option String
  corsEval : Except String Unit

/-- Body of the `try` block of `analyzeButtonsAndFields`
(`src/index.js` lines 467-549), in program order: set the user agent,
navigate, discover buttons and inputs, run the two batched passes, run
the CORS evaluate, and return the payload. Any step's rejection makes
the whole body fail with that message. -/
def sweepBody (pg : SweepPage) (concurrency : Nat) : Except String StressResult := do
  let _ ← pg.setUserAgent
  let _ ← pg.goto
  let texts ← pg.buttonsEval
  let srcs ← pg.inputsEval
  let buttons := runButtonSweep pg.clickOutcome concurrency (initButtons texts)
  let inputFields := runInputSweep pg.fillOutcome concurrency (initInputs srcs)
  let _ ← pg.corsEval
  pure { buttons := buttons, inputFields := inputFields, cors := corsProbe }

/-- Model of `analyzeButtonsAndFields` (`src/index.js` lines 463-556).
The second component counts how many times `browser.close()` runs. The
launch at line 464 and the `newPage` at line 465 are awaited before the
`try`/`catch`/`finally` of lines 467-555, so a `newPage` rejection
propagates to the caller with the `finally` (and its `close`) never
installed; every failure of `sweepBody` inside the `try` is caught at
lines 550-552, which return the fallback
`{ buttons: [], inputFields: [], cors: {} }`, and the `finally` then
closes the browser exactly once. The default `concurrency` at the sole
call site is 1000. -/
def analyzeButtonsAndFields (pg : SweepPage) (concurrency : Nat) :
    Except String StressResult × Nat :=
  match pg.newPage with
  | .error e => (.error e, 0)
  | .ok _ =>
      let result : Except String StressResult :=
        match sweepBody pg concurrency with
        | .error _ => .ok { buttons := [], inputFields := [], cors := [] }
        | .ok r => .ok r
      (result, 1)

/-- Whether `newPage` succeeded; the only condition deciding if the
sweep's `finally` block (and so `browser.close()`) is ever reached. -/
def newPageOk (pg : SweepPage) : Bool :=
  match pg.newPage with
  | .ok _ => true
  | .error _ => false

/-- A record counts as attempted when its interaction ran to an outcome:
either the success flag or the recorded error message is set. (The source
records `success`/`error`; the specification's `attempted` flag is this
disjunction.) -/
def buttonAttempted (b : ButtonRecord) : Bool :=
  b.success || b.error.isSome

/- ### Performance probe (`analyzePerformance`, `src/index.js` lines 45-116) -/

/-- One lighthouse category result (only the normalised 0-1 score is
consumed). -/
structure LhrCategory where
  score : ℚ
deriving DecidableEq

/-- The four lighthouse categories requested at `src/index.js` line 63. -/
structure LhrCategories where
  performance : LhrCategory
  accessibility : LhrCategory
  bestPractices : LhrCategory
  seo : LhrCategory
deriving DecidableEq

/-- One lighthouse audit entry, with the fields
`_processLighthouseResults` reads. -/
structure LhrAudit where
  title : String
  description : String
  score : Option ℚ
  scoreDisplayMode : String
  category : String
  numericValue : ℚ
deriving DecidableEq

/-- The lighthouse result object (`result.lhr`). -/
structure Lhr where
  categories : LhrCategories
  audits : List (String × LhrAudit)
deriving DecidableEq

/-- Numeric value of a named audit (`results.audits[name].numericValue`;
lighthouse always supplies the five timing audits the source reads, so
the default is never consulted by the program). -/
def auditNumeric (results : Lhr) (name : String) : ℚ :=
  ((objFind results.audits name).map (·.numericValue)).getD 0

/-- Accessibility issue entry built at `src/index.js` lines 103-107. -/
structure AuditIssue where
  title : String
  description : String
  score : Option ℚ
deriving DecidableEq

/-- The `performance` section of the processed lighthouse result
(score and five named timing metrics). -/
structure PerformanceSection where
  score : ℚ
  metrics : List (String × ℚ)
deriving DecidableEq

/-- The `accessibility` section of the processed lighthouse result. -/
structure AccessibilitySection where
  score : ℚ
  issues : List AuditIssue
deriving DecidableEq

/-- A section carrying only a score (`bestPractices`, `seo`). -/
structure ScoreOnly where
  score : ℚ
deriving DecidableEq

/-- Result shape of `analyzePerformance` (`src/index.js` lines 88-115). -/
structure PerformanceReport where
  performance : PerformanceSection
  accessibility : AccessibilitySection
  bestPractices : ScoreOnly
  seo : ScoreOnly
deriving DecidableEq

/-- Model of `_processLighthouseResults` (`src/index.js` lines 87-116):
scale the category scores to 0-100, read the five timing metrics, and
collect the accessibility issues. -/
def processLighthouseResults (results : Lhr) : PerformanceReport :=
  { performance :=
      { score := results.categories.performance.score * 100,
        metrics :=
          [("firstContentfulPaint", auditNumeric results "first-contentful-paint"),
           ("largestContentfulPaint", auditNumeric results "largest-contentful-paint"),
           ("speedIndex", auditNumeric results "speed-index"),
           ("totalBlockingTime", auditNumeric results "total-blocking-time"),
           ("cumulativeLayoutShift", auditNumeric results "cumulative-layout-shift")] },
    accessibility :=
      { score := results.categories.accessibility.score * 100,
        issues :=
          (((results.audits.map (·.2)).filter fun a =>
              a.scoreDisplayMode != "notApplicable" && a.category == "accessibility").map
            fun a => { title := a.title, description := a.description, score := a.score }) },
    bestPractices := { score := results.categories.bestPractices.score * 100 },
    seo := { score := results.categories.seo.score * 100 } }

/-- The zero-valued fallback returned by the catch block of
`analyzePerformance` (`src/index.js` lines 72-79). -/
def zeroPerformanceReport : PerformanceReport :=
  { performance := { score := 0, metrics := [] },
    accessibility := { score := 0, issues := [] },
    bestPractices := { score := 0 },
    seo := { score := 0 } }

/-- Model of `analyzePerformance` (`src/index.js` lines 45-85): process
the lighthouse result, or (on a launch/lighthouse failure, including a
missing `result.lhr`) return the zero-valued fallback. -/
def analyzePerformance (o : ProbeOutcome Lhr) : PerformanceReport :=
  match o with
  | .ok results => processLighthouseResults results
  | .err _ => zeroPerformanceReport

/- ### Accessibility probe (`analyzeAccessibility`, `src/index.js` lines 194-252) -/

/-- Image counts of the in-page accessibility report. -/
structure ImagesInfo where
  total : Nat
  withAlt : Nat
deriving DecidableEq

/-- Heading counts and the tag sequence of the in-page report. -/
structure HeadingsInfo where
  total : Nat
  «structure» : List String
deriving DecidableEq

/-- Landmark counts by tag of the in-page report. -/
structure LandmarksInfo where
  total : Nat
  types : List (String × Nat)
deriving DecidableEq

/-- Form label coverage of the in-page report. -/
structure FormsLabelInfo where
  total : Nat
  withLabels : Nat
deriving DecidableEq

/-- Aria counts of the in-page report (never populated by the page
script, so always zero-valued in practice). -/
structure AriaInfo where
  total : Nat
  elements : List String
deriving DecidableEq

/-- Result shape of `analyzeAccessibility`
(`src/index.js` lines 205-211). -/
structure AccessibilityReport where
  images : ImagesInfo
  headings : HeadingsInfo
  landmarks : LandmarksInfo
  forms : FormsLabelInfo
  ariaAttributes : AriaInfo
deriving DecidableEq

/-- The zero-valued fallback returned by the catch block of
`analyzeAccessibility` (`src/index.js` lines 242-248). -/
def zeroAccessibilityReport : AccessibilityReport :=
  { images := { total := 0, withAlt := 0 },
    headings := { total := 0, «structure» := [] },
    landmarks := { total := 0, types := [] },
    forms := { total := 0, withLabels := 0 },
    ariaAttributes := { total := 0, elements := [] } }

/-- Model of `analyzeAccessibility` (`src/index.js` lines 194-252): the
report computed by the in-page evaluate, or the zero-valued fallback on
any thrown error. -/
def analyzeAccessibility (o : ProbeOutcome AccessibilityReport) : AccessibilityReport :=
  match o with
  | .ok report => report
  | .err _ => zeroAccessibilityReport

/- ### Form-validation probe (`analyzeFormValidation`, `src/index.js` lines 613-696) -/

/-- Per-field metadata built by the in-page evaluate at
`src/index.js` lines 621-642 (only the fields the summary consumes are
carried; `hasCustomValidation` is hard-coded false by the page script). -/
structure FormField where
  type : String
  name : String
  id : String
  required : Bool
  hasValidation : Bool
  hasCustomValidation : Bool
deriving DecidableEq

/-- Per-form metadata built by the in-page evaluate at
`src/index.js` lines 644-651. -/
structure FormInfo where
  id : String
  action : String
  method : String
  fields : List FormField
  hasSubmitButton : Bool
  hasCsrfToken : Bool
deriving DecidableEq

/-- The `formsSummary` object (`src/index.js` lines 683-687). -/
structure FormsSummary where
  withValidation : Nat
  withCustomValidation : Nat
  withCsrfProtection : Nat
deriving DecidableEq

/-- Result shape of `analyzeFormValidation`
(`src/index.js` lines 681-689). -/
structure FormsReport where
  totalForms : Nat
  formsSummary : FormsSummary
  details : List FormInfo
deriving DecidableEq

/-- Model of `analyzeFormValidation` (`src/index.js` lines 613-696): on
success summarise the form list from the page (the submission-behaviour
loop at lines 656-679 only logs warnings and never alters `forms`); on
any thrown error the catch block at lines 690-692 returns `null`,
modelled as `none`. -/
def analyzeFormValidation (o : ProbeOutcome (List FormInfo)) : Option FormsReport :=
  match o with
  | .ok forms =>
      some
        { totalForms := forms.length,
          formsSummary :=
            { withValidation :=
                (forms.filter fun f => f.fields.any (·.hasValidation)).length,
              withCustomValidation :=
                (forms.filter fun f => f.fields.any (·.hasCustomValidation)).length,
              withCsrfProtection := (forms.filter (·.hasCsrfToken)).length },
          details := forms }
  | .err _ => none

/- ### PWA probe (`analyzePWAReadiness`, `src/index.js` lines 698-803) -/

/-- Manifest presence check of the in-page evaluate
(`src/index.js` lines 706-709). -/
structure ManifestInfo where
  «exists» : Bool
  content : Option String
deriving DecidableEq

/-- Service-worker presence check (`src/index.js` lines 710-712). -/
structure ServiceWorkerInfo where
  registered : Bool
deriving DecidableEq

/-- Icon presence checks (`src/index.js` lines 713-717). -/
structure IconsInfo where
  favicon : Bool
  appleTouchIcon : Bool
  maskIcon : Bool
deriving DecidableEq

/-- Meta-tag presence checks (`src/index.js` lines 718-722). -/
structure MetaInfo where
  viewport : Bool
  themeColor : Bool
  description : Bool
deriving DecidableEq

/-- The `pwaFeatures` object computed in the page
(`src/index.js` lines 704-724). -/
structure PwaFeatures where
  manifest : ManifestInfo
  serviceWorker : ServiceWorkerInfo
  icons : IconsInfo
  meta : MetaInfo
deriving DecidableEq

/-- What the PWA probe's page interactions produced: the feature
evaluation and the offline sub-probe (`src/index.js` lines 726-736),
whose own try/catch leaves `offlineCapable` false when forcing offline
mode or reloading throws. -/
structure PwaPageOutcome where
  features : PwaFeatures
  offline : ProbeOutcome Bool

/-- Model of `_calculatePWAScore` (`src/index.js` lines 759-776). -/
def calculatePWAScore (features : PwaFeatures) (offlineCapable : Bool) : Nat :=
  (if features.manifest.«exists» then 20 else 0)
  + (if features.serviceWorker.registered then 20 else 0)
  + (if features.icons.favicon || features.icons.appleTouchIcon || features.icons.maskIcon
      then 15 else 0)
  + (if features.meta.viewport || features.meta.themeColor || features.meta.description
      then 15 else 0)
  + (if offlineCapable then 30 else 0)

/-- Model of `_generatePWARecommendations`
(`src/index.js` lines 778-803). -/
def generatePWARecommendations (features : PwaFeatures) : List Recommendation :=
  (if !features.manifest.«exists» then
    [⟨"High", "Add a Web App Manifest to enable PWA features"⟩] else []) ++
  (if !features.serviceWorker.registered then
    [⟨"High", "Implement a Service Worker for offline capabilities"⟩] else []) ++
  (if !features.meta.viewport then
    [⟨"Medium", "Add a viewport meta tag for better mobile experience"⟩] else [])

/-- Result shape of `analyzePWAReadiness`
(`src/index.js` lines 743-750): the features object spread together with
the `offlineCapable` flag, the score and the recommendations. -/
structure PWAReport where
  features : PwaFeatures
  offlineCapable : Bool
  score : Nat
  recommendations : List Recommendation
deriving DecidableEq

/-- Model of `analyzePWAReadiness` (`src/index.js` lines 698-757): on
success, combine the in-page feature checks with the offline sub-probe
(an offline-test failure is caught locally, leaving `offlineCapable`
false); on any thrown error the catch block at lines 751-753 returns
`null`, modelled as `none`. -/
def analyzePWAReadiness (o : ProbeOutcome PwaPageOutcome) : Option PWAReport :=
  match o with
  | .ok pg =>
      let offlineCapable :=
        match pg.offline with
        | .ok b => b
        | .err _ => false
      some
        { features := pg.features,
          offlineCapable := offlineCapable,
          score := calculatePWAScore pg.features offlineCapable,
          recommendations := generatePWARecommendations pg.features }
  | .err _ => none

/- ### Backlink probe (`analyzeBacklinks`, `src/index.js` lines 255-308) -/

/-- One anchor collected by the in-page evaluate
(`src/index.js` lines 261-268). -/
structure LinkRecord where
  href : String
  text : String
deriving DecidableEq

/-- Outcome of the `fetch(link.href, { method: 'HEAD' })` call for one
link: a status code, or a connection failure with its message. -/
inductive FetchOutcome where
  | status (code : Nat)
  | failed (msg : String)

/-- The JS `statusCode` field of a broken-link entry, which holds either
a number or the literal string `'Connection failed'`. -/
inductive JsStatusCode where
  | num (code : Nat)
  | str (s : String)
deriving DecidableEq

/-- Broken-link entry (`src/index.js` lines 278-291); the `error` field
is only present on the connection-failure branch. -/
structure BrokenLink where
  url : String
  statusCode : JsStatusCode
  anchorText : String
  error : Option String
deriving DecidableEq

/-- The body of the per-link loop at `src/index.js` lines 272-293: a
status of 400 or above pushes a broken-link entry, a fetch rejection
pushes an entry with `statusCode: 'Connection failed'` and the error
message. -/
def checkLink (link : LinkRecord) (outcome : FetchOutcome) : List BrokenLink :=
  match outcome with
  | .status code =>
      if code ≥ 400 then
        [{ url := link.href, statusCode := .num code, anchorText := link.text, error := none }]
      else []
  | .failed msg =>
      [{ url := link.href, statusCode := .str "Connection failed", anchorText := link.text,
         error := some msg }]

/-- Result shape of `analyzeBacklinks` (`src/index.js` lines 295-298). -/
structure BacklinksReport where
  totalChecked : Nat
  brokenLinks : List BrokenLink
deriving DecidableEq

/-- Model of `analyzeBacklinks` (`src/index.js` lines 255-308): check
each collected link in order; on any thrown error outside the per-link
try/catch, the catch block at lines 299-304 returns the zero-valued
fallback. -/
def analyzeBacklinks (o : ProbeOutcome (List (LinkRecord × FetchOutcome))) : BacklinksReport :=
  match o with
  | .ok links =>
      { totalChecked := links.length,
        brokenLinks := (links.map fun p => checkLink p.1 p.2).flatten }
  | .err _ => { totalChecked := 0, brokenLinks := [] }

/- ### Coordinator (`generateFullReport`, `src/index.js` lines 310-382, 446-461) -/

/-- The `weights` table of `_calculateOverallScore`
(`src/index.js` lines 447-451); the JS literals 0.4 and 0.3 are modelled
by the exact rationals they denote. -/
structure OverallWeights where
  performance : ℚ
  security : ℚ
  accessibility : ℚ

/-- The declared weight values; the accessibility weight is declared but
never used in the returned sum. -/
def overallWeights : OverallWeights :=
  { performance := 2/5, security := 3/10, accessibility := 3/10 }

/-- Model of `_calculateOverallScore` (`src/index.js` lines 446-457):
`Math.round` of the performance score times 0.4 plus the security score
times 0.3 (no accessibility term). -/
def calculateOverallScore (performance : PerformanceReport) (security : SecurityReport) : ℤ :=
  mathRound
    (performance.performance.score * overallWeights.performance
      + (security.score : ℚ) * overallWeights.security)

/-- The `details` object nested in `additionalTests`
(`src/index.js` lines 349-354). -/
structure AdditionalDetails where
  formValidation : Option FormsReport
  pwaReadiness : Option PWAReport
  thirdPartyServices : Option ThirdPartyReport
  backlinks : BacklinksReport

/-- The `additionalTests` object (`src/index.js` lines 347-355). -/
structure AdditionalTests where
  title : String
  details : AdditionalDetails

/-- The report object assembled at `src/index.js` lines 338-358. The
`overallScore:` property is commented out at line 357, so the JS object
carries no such property; reading `report.overallScore` yields
`undefined`, modelled as `none`. -/
structure AuditReport where
  url : String
  timestamp : String
  performance : PerformanceReport
  security : SecurityReport
  stressTest : StressResult
  accessibility : AccessibilityReport
  additionalTests : AdditionalTests
  overallScore : Option ℤ

/-- Outcomes of every external interaction one full audit performs, in
probe order. -/
structure AuditEnv where
  url : String
  timestamp : String
  perf : ProbeOutcome Lhr
  security : ProbeOutcome (List (String × String))
  accessibility : ProbeOutcome AccessibilityReport
  sweep : SweepPage
  thirdParty : ProbeOutcome (List NetRequest)
  forms : ProbeOutcome (List FormInfo)
  pwa : ProbeOutcome PwaPageOutcome
  backlinks : ProbeOutcome (List (LinkRecord × FetchOutcome))

/-- Model of `generateFullReport` (`src/index.js` lines 310-382): run the
probes sequentially and assemble the report object. Each probe contains
its own failures, except `analyzeButtonsAndFields`, whose `newPage`
rejection escapes; the coordinator catch at lines 378-381 rethrows, so
that failure aborts the audit. The assembled report has no
`overallScore` property (line 357 is commented out). -/
def generateFullReport (env : AuditEnv) : Except String AuditReport :=
  match (analyzeButtonsAndFields env.sweep 1000).1 with
  | .error e => .error e
  | .ok stressTest =>
      .ok
        { url := env.url,
          timestamp := env.timestamp,
          performance := analyzePerformance env.perf,
          security := analyzeSecurity env.security,
          stressTest := stressTest,
          accessibility := analyzeAccessibility env.accessibility,
          additionalTests :=
            { title := "Additional Test Report",
              details :=
                { formValidation := analyzeFormValidation env.forms,
                  pwaReadiness := analyzePWAReadiness env.pwa,
                  thirdPartyServices := analyzeThirdPartyServices env.thirdParty env.url,
                  backlinks := analyzeBacklinks env.backlinks } },
          overallScore := none }

/-- The string JS interpolation prints for a number-or-undefined value
(`${report.overallScore}` at `src/index.js` line 372). -/
def jsShowOverall : Option ℤ → String
  | none => "undefined"
  | some v => if v < 0 then "-" ++ natDecimal v.natAbs else natDecimal v.natAbs

/-- The overall-score line of the console summary
(`src/index.js` line 372). -/
def overallScoreLine (report : AuditReport) : String :=
  "Overall Score: " ++ jsShowOverall report.overallScore

/- ### Concrete fixtures used by the claim instances -/

/-- A lighthouse result with the performance category at 0.8 (the other
categories do not enter the overall score). -/
def sampleLhr : Lhr :=
  { categories :=
      { performance := { score := 4/5 },
        accessibility := { score := 9/10 },
        bestPractices := { score := 1 },
        seo := { score := 1 } },
    audits := [] }

/-- A response carrying exactly the `Strict-Transport-Security` and
`X-Frame-Options` headers. -/
def sampleSecurityResponse : List (String × String) :=
  [("strict-transport-security", "max-age=31536000"),
   ("x-frame-options", "DENY")]

/-- A response carrying all seven scored security headers. -/
def fullSecurityResponse : List (String × String) :=
  [("strict-transport-security", "max-age=31536000"),
   ("content-security-policy", "default-src https:"),
   ("x-frame-options", "DENY"),
   ("x-content-type-options", "nosniff"),
   ("referrer-policy", "no-referrer"),
   ("permissions-policy", "geolocation=()"),
   ("x-xss-protection", "1; mode=block")]

/-- A sweep environment in which every browser interaction succeeds and
the page has no buttons and no inputs. -/
def emptyPageSweep : SweepPage :=
  { newPage := .ok (),
    setUserAgent := .ok (),
    goto := .ok (),
    buttonsEval := .ok [],
    inputsEval := .ok [],
    clickOutcome := fun _ => none,
    fillOutcome := fun _ => none,
    corsEval := .ok () }

/-- A sweep environment in which `browser.newPage()` rejects right after
a successful `puppeteer.launch()`. -/
def newPageFailsSweep : SweepPage :=
  { newPage := .error "Protocol error: Connection closed.",
    setUserAgent := .ok (),
    goto := .ok (),
    buttonsEval := .ok [],
    inputsEval := .ok [],
    clickOutcome := fun _ => none,
    fillOutcome := fun _ => none,
    corsEval := .ok () }

/-- A full-audit environment: lighthouse reports 0.8 performance, the
response carries two security headers, and the remaining probes fail on
navigation. -/
def sampleAuditEnv : AuditEnv :=
  { url := "https://example.com/",
    timestamp := "2026-10-11T00:00:00.000Z",
    perf := .ok sampleLhr,
    security := .ok sampleSecurityResponse,
    accessibility := .err "Navigation timeout of 30000 ms exceeded",
    sweep := emptyPageSweep,
    thirdParty := .err "net::ERR_NAME_NOT_RESOLVED at https://example.com/",
    forms := .err "Navigation timeout of 30000 ms exceeded",
    pwa := .err "Navigation timeout of 30000 ms exceeded",
    backlinks := .err "Navigation timeout of 30000 ms exceeded" }

/-- A duplicated third-party request, observed twice during one
navigation. -/
def dupRequest : NetRequest :=
  { url := "https://ads.example.net/pixel.js", type := "script", method := "GET" }

/-- A click environment in which exactly the button at DOM index 1
throws. -/
def failingClickOutcome : Nat → Option String :=
  fun n => if n = 1 then some "Node is detached from document" else none

/- ### Basic lemmas about the primitives -/

theorem chunkArrayAux_fuel {α : Type} (size : Nat) (hs : 0 < size) :
    ∀ (f1 f2 : Nat) (l : List α), l.length ≤ f1 → l.length ≤ f2 →
      chunkArrayAux f1 l size = chunkArrayAux f2 l size := by
  intro f1
  induction f1 with
  | zero =>
    intro f2 l h1 _
    match l with
    | [] => cases f2 <;> rfl
    | a :: rest => simp at h1
  | succ n ih =>
    intro f2 l h1 h2
    match l with
    | [] => cases f2 <;> rfl
    | a :: rest =>
      match f2 with
      | 0 => simp at h2
      | m + 1 =>
        simp only [chunkArrayAux]
        congr 1
        apply ih
        · simp only [List.length_drop, List.length_cons] at *
          omega
        · simp only [List.length_drop, List.length_cons] at *
          omega

theorem chunkArray_nil {α : Type} (size : Nat) : chunkArray ([] : List α) size = [] := rfl

theorem chunkArray_cons {α : Type} (a : α) (rest : List α) (size : Nat) (hs : 0 < size) :
    chunkArray (a :: rest) size
      = (a :: rest).take size :: chunkArray ((a :: rest).drop size) size := by
  simp only [chunkArray, List.length_cons, chunkArrayAux]
  congr 1
  apply chunkArrayAux_fuel size hs
  · simp only [List.length_drop, List.length_cons]
    omega
  · exact Nat.le_refl _

theorem chunkArray_flatten {α : Type} (size : Nat) (hs : 0 < size) :
    ∀ l : List α, (chunkArray l size).flatten = l := by
  have key : ∀ (n : Nat) (l : List α), l.length ≤ n → (chunkArray l size).flatten = l := by
    intro n
    induction n with
    | zero =>
      intro l hl
      match l with
      | [] => rfl
      | a :: rest => simp at hl
    | succ n ih =>
      intro l hl
      match l with
      | [] => rfl
      | a :: rest =>
        rw [chunkArray_cons a rest size hs]
        simp only [List.flatten_cons]
        rw [ih ((a :: rest).drop size) (by simp only [List.length_drop, List.length_cons] at *; omega)]
        exact List.take_append_drop size (a :: rest)
  intro l
  exact key l.length l (Nat.le_refl _)

theorem chunkArray_length {α : Type} (size : Nat) (hs : 0 < size) :
    ∀ l : List α, (chunkArray l size).length = (l.length + size - 1) / size := by
  have key : ∀ (n : Nat) (l : List α), l.length ≤ n →
      (chunkArray l size).length = (l.length + size - 1) / size := by
    intro n
    induction n with
    | zero =>
      intro l hl
      match l with
      | [] =>
        rw [chunkArray_nil]
        simp only [List.length_nil, Nat.zero_add]
        exact (Nat.div_eq_of_lt (by omega)).symm
      | a :: rest => simp at hl
    | succ n ih =>
      intro l hl
      match l with
      | [] =>
        rw [chunkArray_nil]
        simp only [List.length_nil, Nat.zero_add]
        exact (Nat.div_eq_of_lt (by omega)).symm
      | a :: rest =>
        rw [chunkArray_cons a rest size hs]
        simp only [List.length_cons]
        rw [ih ((a :: rest).drop size) (by simp only [List.length_drop, List.length_cons] at *; omega)]
        simp only [List.length_drop, List.length_cons]
        by_cases hle : rest.length + 1 ≤ size
        · have h1 : rest.length + 1 - size = 0 := by omega
          have h2 : rest.length + 1 + size - 1 = rest.length + size := by omega
          rw [h1, h2]
          have h3 : (0 + size - 1) / size = 0 := Nat.div_eq_of_lt (by omega)
          have h4 : (rest.length + size) / size = rest.length / size + 1 := Nat.add_div_right _ hs
          have h5 : rest.length / size = 0 := Nat.div_eq_of_lt (by omega)
          omega
        · push_neg at hle
          have h1 : rest.length + 1 - size + size - 1 = rest.length := by omega
          have h2 : rest.length + 1 + size - 1 = rest.length + size := by omega
          rw [h1, h2, Nat.add_div_right _ hs]
  intro l
  exact key l.length l (Nat.le_refl _)

theorem chunkArray_mem_length_le {α : Type} (size : Nat) (hs : 0 < size) :
    ∀ (l : List α), ∀ c ∈ chunkArray l size, c.length ≤ size := by
  have key : ∀ (n : Nat) (l : List α), l.length ≤ n → ∀ c ∈ chunkArray l size, c.length ≤ size := by
    intro n
    induction n with
    | zero =>
      intro l hl c hc
      match l with
      | [] => simp [chunkArray_nil] at hc
      | a :: rest => simp at hl
    | succ n ih =>
      intro l hl c hc
      match l with
      | [] => simp [chunkArray_nil] at hc
      | a :: rest =>
        rw [chunkArray_cons a rest size hs] at hc
        rcases List.mem_cons.mp hc with h | h
        · subst h
          simp
        · exact ih ((a :: rest).drop size)
            (by simp only [List.length_drop, List.length_cons] at *; omega) c h
  intro l
  exact key l.length l (Nat.le_refl _)

theorem chunkArray_eq_nil_iff {α : Type} (size : Nat) (hs : 0 < size) (l : List α) :
    chunkArray l size = [] ↔ l = [] := by
  match l with
  | [] => simp [chunkArray_nil]
  | a :: rest => simp [chunkArray_cons a rest size hs]

theorem chunkArray_dropLast_full {α : Type} (size : Nat) (hs : 0 < size) :
    ∀ (l : List α), ∀ c ∈ (chunkArray l size).dropLast, c.length = size := by
  have key : ∀ (n : Nat) (l : List α), l.length ≤ n →
      ∀ c ∈ (chunkArray l size).dropLast, c.length = size := by
    intro n
    induction n with
    | zero =>
      intro l hl c hc
      match l with
      | [] => simp [chunkArray_nil] at hc
      | a :: rest => simp at hl
    | succ n ih =>
      intro l hl c hc
      match l with
      | [] => simp [chunkArray_nil] at hc
      | a :: rest =>
        rw [chunkArray_cons a rest size hs] at hc
        by_cases hrest : (a :: rest).drop size = []
        · rw [hrest, chunkArray_nil] at hc
          simp at hc
        · have hne : chunkArray ((a :: rest).drop size) size ≠ [] := by
            rw [Ne, chunkArray_eq_nil_iff size hs]
            exact hrest
          rw [List.dropLast_cons_of_ne_nil hne] at hc
          rcases List.mem_cons.mp hc with h | h
          · subst h
            have hlen : size ≤ (a :: rest).length := by
              by_contra hcon
              push_neg at hcon
              exact hrest (List.drop_eq_nil_of_le (Nat.le_of_lt hcon))
            simp only [List.length_cons] at hlen
            rw [List.length_take]
            simp only [List.length_cons]
            omega
          · exact ih ((a :: rest).drop size)
              (by simp only [List.length_drop, List.length_cons] at *; omega) c h
  intro l
  exact key l.length l (Nat.le_refl _)

theorem digitVal_digitChar : ∀ d < 10, digitVal (digitChar d) = d := by decide

theorem decValue_rev_map (l : List Nat) (h : ∀ d ∈ l, d < 10) :
    decValue ((l.map digitChar).reverse) = Nat.ofDigits 10 l := by
  unfold decValue
  rw [List.foldl_reverse, List.foldr_map]
  induction l with
  | nil => rfl
  | cons d rest ih =>
    simp only [List.foldr_cons, Nat.ofDigits_cons]
    rw [ih (fun x hx => h x (List.mem_cons_of_mem d hx))]
    rw [digitVal_digitChar d (h d (List.mem_cons_self d rest))]
    ring

theorem decValue_natDecimal (n : Nat) : decValue (natDecimal n).data = n := by
  unfold natDecimal
  by_cases h : n = 0
  · subst h
    decide
  · rw [if_neg h]
    have : (String.mk (((Nat.digits 10 n).map digitChar).reverse)).data
        = ((Nat.digits 10 n).map digitChar).reverse := rfl
    rw [this, decValue_rev_map _ (fun d hd => Nat.digits_lt_base (by norm_num) hd),
      Nat.ofDigits_digits]

theorem natDecimal_injective : ∀ m n : Nat, natDecimal m = natDecimal n → m = n := by
  intro m n h
  have := congrArg (fun s : String => decValue s.data) h
  simpa [decValue_natDecimal] using this

theorem string_data_append (s t : String) : (s ++ t).data = s.data ++ t.data := by
  cases s
  cases t
  rfl

theorem string_append_left_cancel (p s t : String) (h : p ++ s = p ++ t) : s = t := by
  have hd := congrArg String.data h
  rw [string_data_append, string_data_append] at hd
  have : (p.data ++ s.data).drop p.data.length = (p.data ++ t.data).drop p.data.length := by
    rw [hd]
  simp only [List.drop_left] at this
  exact String.ext this

theorem calculateSecurityScore_foldl_init (headers : List (String × Option String)) :
    ∀ n : Nat,
      headers.foldl (fun score e => if jsTruthy e.2 then score + weightOf e.1 else score) n
        = n + ((headers.filter fun e => jsTruthy e.2).map fun e => weightOf e.1).sum := by
  induction headers with
  | nil => intro n; simp
  | cons e rest ih =>
    intro n
    by_cases he : jsTruthy e.2
    · simp only [List.foldl_cons, List.filter_cons, he, if_pos, List.map_cons, List.sum_cons]
      rw [ih (n + weightOf e.1)]
      omega
    · simp only [List.foldl_cons, List.filter_cons, he, if_neg, Bool.false_eq_true,
        ite_false]
      rw [ih n]

theorem calculateSecurityScore_eq_sum (headers : List (String × Option String)) :
    calculateSecurityScore headers
      = ((headers.filter fun e => jsTruthy e.2).map fun e => weightOf e.1).sum := by
  unfold calculateSecurityScore
  rw [calculateSecurityScore_foldl_init headers 0]
  omega

theorem objFind_append_single {β : Type} (acc : List (String × β)) (d : String) (v : β)
    (h : String) :
    objFind (acc ++ [(d, v)]) h
      = match objFind acc h with
        | some s => some s
        | none => if h = d then some v else none := by
  induction acc with
  | nil =>
    simp only [List.nil_append, objFind]
    by_cases hd : d = h
    · subst hd
      simp
    · rw [if_neg hd]
      rw [if_neg fun hc : h = d => hd hc.symm]
  | cons p rest ih =>
    by_cases hp : p.1 = h
    · simp [objFind, hp]
    · simp only [List.cons_append, objFind, if_neg hp]
      exact ih

theorem objFind_objSet {β : Type} (acc : List (String × β)) (d : String) (v : β) (h : String) :
    objFind (objSet acc d v) h
      = if h = d then (objFind acc d).map fun _ => v else objFind acc h := by
  induction acc with
  | nil => by_cases hd : h = d <;> simp [objFind, objSet, hd]
  | cons p rest ih =>
    simp only [objSet]
    by_cases hpd : p.1 = d
    · by_cases hd : h = d
      · subst hd
        simp [objFind, hpd, if_pos rfl]
      · have hph : ¬ p.1 = h := fun hc => hd (hc.symm.trans hpd)
        simp only [objFind, if_pos hpd, if_neg hph, if_neg hd, ih]
    · by_cases hph : p.1 = h
      · have hd : ¬ h = d := fun hc => hpd (hph.trans hc)
        simp only [objFind, if_neg hpd, if_pos hph, if_neg hd, ih]
      · simp only [objFind, if_neg hpd, if_neg hph, ih]

theorem requestCountOf_foldRequest_other (main h : String) (acc : List (String × ServiceAcc))
    (r : NetRequest) (hne : urlHostname r.url ≠ h) :
    requestCountOf (foldRequest main acc r) h = requestCountOf acc h := by
  unfold foldRequest
  by_cases hmain : urlHostname r.url ≠ main
  · rw [if_pos hmain]
    cases hfind : objFind acc (urlHostname r.url) with
    | none =>
      simp only [requestCountOf, objFind_append_single]
      cases objFind acc h with
      | none => simp [if_neg fun hc : h = urlHostname r.url => hne hc.symm]
      | some s => simp
    | some s =>
      simp only [requestCountOf, objFind_objSet]
      rw [if_neg fun hc : h = urlHostname r.url => hne hc.symm]
  · rw [if_neg hmain]

theorem requestCountOf_foldRequest_same (main : String) (acc : List (String × ServiceAcc))
    (r : NetRequest) (hmain : urlHostname r.url ≠ main) :
    requestCountOf (foldRequest main acc r) (urlHostname r.url)
      = requestCountOf acc (urlHostname r.url) + 1 := by
  unfold foldRequest
  rw [if_pos hmain]
  cases hfind : objFind acc (urlHostname r.url) with
  | none =>
    simp only [requestCountOf, objFind_append_single, hfind]
    simp
  | some s =>
    simp only [requestCountOf, objFind_objSet, if_pos rfl, hfind]
    simp

theorem requestCountOf_fold (main h : String) (hne : h ≠ main) :
    ∀ (reqs : List NetRequest) (acc : List (String × ServiceAcc)),
      requestCountOf (reqs.foldl (foldRequest main) acc) h
        = requestCountOf acc h
          + (reqs.filter fun r => urlHostname r.url = h).length := by
  intro reqs
  induction reqs with
  | nil => intro acc; simp
  | cons r rest ih =>
    intro acc
    simp only [List.foldl_cons, List.filter_cons]
    by_cases hr : urlHostname r.url = h
    · subst hr
      rw [ih (foldRequest main acc r),
        requestCountOf_foldRequest_same main acc r
          (fun hc => hne (hc ▸ rfl))]
      simp
      omega
    · rw [ih (foldRequest main acc r), requestCountOf_foldRequest_other main h acc r hr]
      simp [hr]

theorem mapIdxFrom_length {α β : Type} (f : Nat → α → β) :
    ∀ (start : Nat) (l : List α), (mapIdxFrom f start l).length = l.length := by
  intro start l
  induction l generalizing start with
  | nil => rfl
  | cons a as ih => simp [mapIdxFrom, ih]

theorem jsMapIdx_length {α β : Type} (f : Nat → α → β) (l : List α) :
    (jsMapIdx f l).length = l.length :=
  mapIdxFrom_length f 0 l

theorem mapIdxFrom_get {α β : Type} (f : Nat → α → β) :
    ∀ (start : Nat) (l : List α) (i : Nat) (h : i < l.length)
      (h2 : i < (mapIdxFrom f start l).length),
      (mapIdxFrom f start l).get ⟨i, h2⟩ = f (start + i) (l.get ⟨i, h⟩) := by
  intro start l
  induction l generalizing start with
  | nil => intro i h h2; simp at h
  | cons a as ih =>
    intro i h h2
    match i with
    | 0 => simp [mapIdxFrom]
    | i + 1 =>
      simp only [mapIdxFrom, List.get_cons_succ]
      rw [ih (start + 1) i (by simpa using h) (by simpa [mapIdxFrom_length] using h)]
      congr 1
      omega

theorem jsMapIdx_get {α β : Type} (f : Nat → α → β) (l : List α) (i : Nat) (h : i < l.length)
    (h2 : i < (jsMapIdx f l).length) :
    (jsMapIdx f l).get ⟨i, h2⟩ = f i (l.get ⟨i, h⟩) := by
  unfold jsMapIdx
  rw [mapIdxFrom_get f 0 l i h h2]
  simp

theorem runButtonSweep_eq_map (clickOutcome : Nat → Option String) (concurrency : Nat)
    (hc : 0 < concurrency) (buttons : List ButtonRecord) :
    runButtonSweep clickOutcome concurrency buttons = buttons.map (applyClick clickOutcome) :=
  chunkArray_flatten concurrency hc _

theorem runInputSweep_eq_mapIdx (fillOutcome : Nat → Option String) (concurrency : Nat)
    (hc : 0 < concurrency) (inputs : List InputRecord) :
    runInputSweep fillOutcome concurrency inputs = jsMapIdx (applyFill fillOutcome) inputs :=
  chunkArray_flatten concurrency hc _

theorem applyClick_attempted (clickOutcome : Nat → Option String) (b : ButtonRecord) :
    buttonAttempted (applyClick clickOutcome b) = true := by
  unfold applyClick buttonAttempted
  cases clickOutcome b.index <;> simp

/- ### Claim theorems -/

/-- C6: the security score equals the sum of the fixed weights
(HSTS 20, CSP 25, XFO 15, XCTO 15, Referrer 10, Permissions 10, XSS 5)
over exactly the truthy (present, non-null) entries of the header map;
with only `Strict-Transport-Security` and `X-Frame-Options` present the
score is 35, and with all seven headers present it is 100. -/
theorem security_score_weighted_sum :
    (∀ headers : List (String × Option String),
      calculateSecurityScore headers
        = ((headers.filter fun e => jsTruthy e.2).map fun e => weightOf e.1).sum)
    ∧ (analyzeSecurity (.ok sampleSecurityResponse)).score = 35
    ∧ (analyzeSecurity (.ok fullSecurityResponse)).score = 100 :=
  ⟨calculateSecurityScore_eq_sum, by decide, by decide⟩

/-- C10: `chunkArray` is a true partition of its input: for every array
and every positive chunk size, concatenating the returned chunks in
order yields exactly the original array, so batching never drops,
duplicates, or reorders an operation. -/
theorem chunkArray_concat_partition (α : Type) (ops : List α) (size : Nat) (hs : 0 < size) :
    (chunkArray ops size).flatten = ops :=
  chunkArray_flatten size hs ops

/-- Witness for C10 at the concrete array `[10, 20, 30]` and chunk size
2. -/
theorem chunkArray_concat_partition_witness :
    0 < 2 ∧ (chunkArray ([10, 20, 30] : List Nat) 2).flatten = [10, 20, 30] :=
  ⟨by decide, chunkArray_concat_partition Nat [10, 20, 30] 2 (by decide)⟩

/-- C7: for a list of N operations and a concurrency limit K > 0, the
sweep partitions the operations into exactly ⌈N/K⌉ = (N + K - 1) / K
batches, each of size at most K and all but possibly the last of size
exactly K, preserving order within and across batches (the concatenation
of the batches in await order is the original list); with zero elements
found the sweep returns empty arrays rather than an error. -/
theorem interaction_sweep_batching (α : Type) (ops : List α) (K : Nat) (hK : 0 < K) :
    (chunkArray ops K).length = (ops.length + K - 1) / K
    ∧ (∀ c ∈ chunkArray ops K, c.length ≤ K)
    ∧ (∀ c ∈ (chunkArray ops K).dropLast, c.length = K)
    ∧ (chunkArray ops K).flatten = ops
    ∧ (analyzeButtonsAndFields emptyPageSweep K).1
        = .ok { buttons := [], inputFields := [], cors := corsProbe } :=
  ⟨chunkArray_length K hK ops,
   chunkArray_mem_length_le K hK ops,
   chunkArray_dropLast_full K hK ops,
   chunkArray_flatten K hK ops,
   by
     simp only [analyzeButtonsAndFields, emptyPageSweep, sweepBody, runButtonSweep,
       runInputSweep, initButtons, initInputs, jsMapIdx, mapIdxFrom, List.map_nil,
       chunkArray_nil, List.flatten_nil, Except.bind, bind, pure, Except.pure]⟩

/-- Witness for C7 at three operations and concurrency limit 2. -/
theorem interaction_sweep_batching_witness :
    0 < 2
    ∧ ((chunkArray ([10, 20, 30] : List Nat) 2).length = (3 + 2 - 1) / 2
        ∧ (∀ c ∈ chunkArray ([10, 20, 30] : List Nat) 2, c.length ≤ 2)
        ∧ (∀ c ∈ (chunkArray ([10, 20, 30] : List Nat) 2).dropLast, c.length = 2)
        ∧ (chunkArray ([10, 20, 30] : List Nat) 2).flatten = [10, 20, 30]
        ∧ (analyzeButtonsAndFields emptyPageSweep 2).1
            = .ok { buttons := [], inputFields := [], cors := corsProbe }) :=
  ⟨by decide, interaction_sweep_batching Nat [10, 20, 30] 2 (by decide)⟩

/-- C8: for every discovered button the batched sweep records an outcome
(attempted: success flag or error message set); a throwing click is
caught and its message recorded in that button's error field; and one
element's outcome never influences another element's record, in the same
batch or a later one — the sweep is the per-element map, never aborted. -/
theorem button_failure_isolation (clickOutcome : Nat → Option String) (K : Nat)
    (buttons : List ButtonRecord) (hK : 0 < K) :
    runButtonSweep clickOutcome K buttons = buttons.map (applyClick clickOutcome)
    ∧ (∀ r ∈ runButtonSweep clickOutcome K buttons, buttonAttempted r = true)
    ∧ (∀ b : ButtonRecord, ∀ msg : String, clickOutcome b.index = some msg →
        (applyClick clickOutcome b).error = some msg)
    ∧ (∀ (clickOutcome2 : Nat → Option String) (b : ButtonRecord),
        clickOutcome b.index = clickOutcome2 b.index →
        applyClick clickOutcome b = applyClick clickOutcome2 b) := by
  refine ⟨runButtonSweep_eq_map clickOutcome K hK buttons, ?_, ?_, ?_⟩
  · intro r hr
    rw [runButtonSweep_eq_map clickOutcome K hK buttons] at hr
    obtain ⟨b, _, rfl⟩ := List.mem_map.mp hr
    exact applyClick_attempted clickOutcome b
  · intro b msg hmsg
    unfold applyClick
    rw [hmsg]
  · intro clickOutcome2 b hagree
    unfold applyClick
    rw [hagree]

/-- Witness for C8: three buttons, concurrency limit 2, the click at DOM
index 1 throwing. -/
theorem button_failure_isolation_witness :
    0 < 2
    ∧ (runButtonSweep failingClickOutcome 2 (initButtons ["a", "b", "c"])
          = (initButtons ["a", "b", "c"]).map (applyClick failingClickOutcome)
        ∧ (∀ r ∈ runButtonSweep failingClickOutcome 2 (initButtons ["a", "b", "c"]),
            buttonAttempted r = true)
        ∧ (∀ b : ButtonRecord, ∀ msg : String, failingClickOutcome b.index = some msg →
            (applyClick failingClickOutcome b).error = some msg)
        ∧ (∀ (clickOutcome2 : Nat → Option String) (b : ButtonRecord),
            failingClickOutcome b.index = clickOutcome2 b.index →
            applyClick failingClickOutcome b = applyClick clickOutcome2 b)) :=
  ⟨by decide, button_failure_isolation failingClickOutcome 2 (initButtons ["a", "b", "c"])
    (by decide)⟩

/-- C9: the synthetic fill values are pairwise distinct — the input at
position i is filled with exactly the string "test value " followed by
the decimal numeral of i, the mapping from index to fill value is
injective, and on a successful fill the record's valueAfter equals that
fill value (with the success flag set). -/
theorem input_fill_values_distinct (fillOutcome : Nat → Option String) (K : Nat)
    (inputs : List InputRecord) (hK : 0 < K) :
    (∀ i j : Nat, fillValue i = fillValue j → i = j)
    ∧ runInputSweep fillOutcome K inputs = jsMapIdx (applyFill fillOutcome) inputs
    ∧ (∀ (i : Nat) (h : i < inputs.length)
        (h2 : i < (jsMapIdx (applyFill fillOutcome) inputs).length),
        fillOutcome (inputs.get ⟨i, h⟩).index = none →
        ((jsMapIdx (applyFill fillOutcome) inputs).get ⟨i, h2⟩).valueAfter
            = some (fillValue i)
          ∧ ((jsMapIdx (applyFill fillOutcome) inputs).get ⟨i, h2⟩).success = true) := by
  refine ⟨?_, runInputSweep_eq_mapIdx fillOutcome K hK inputs, ?_⟩
  · intro i j hij
    exact natDecimal_injective i j
      (string_append_left_cancel "test value " (natDecimal i) (natDecimal j) hij)
  · intro i h h2 hok
    rw [jsMapIdx_get (applyFill fillOutcome) inputs i h h2]
    unfold applyFill
    rw [hok]
    exact ⟨rfl, rfl⟩

/-- Witness for C9: two inputs, concurrency limit 2, every fill
succeeding. -/
theorem input_fill_values_distinct_witness :
    0 < 2
    ∧ ((∀ i j : Nat, fillValue i = fillValue j → i = j)
        ∧ runInputSweep (fun _ => none) 2
            (initInputs [⟨none, none, ""⟩, ⟨some "email", none, "x"⟩])
          = jsMapIdx (applyFill fun _ => none)
              (initInputs [⟨none, none, ""⟩, ⟨some "email", none, "x"⟩])
        ∧ (∀ (i : Nat)
            (h : i < (initInputs [⟨none, none, ""⟩, ⟨some "email", none, "x"⟩]).length)
            (h2 : i < (jsMapIdx (applyFill fun _ => none)
                (initInputs [⟨none, none, ""⟩, ⟨some "email", none, "x"⟩])).length),
            (fun _ => (none : Option String))
                ((initInputs [⟨none, none, ""⟩, ⟨some "email", none, "x"⟩]).get ⟨i, h⟩).index
              = none →
            ((jsMapIdx (applyFill fun _ => none)
                (initInputs [⟨none, none, ""⟩, ⟨some "email", none, "x"⟩])).get
                  ⟨i, h2⟩).valueAfter
                = some (fillValue i)
              ∧ ((jsMapIdx (applyFill fun _ => none)
                  (initInputs [⟨none, none, ""⟩, ⟨some "email", none, "x"⟩])).get
                    ⟨i, h2⟩).success = true)) :=
  ⟨by decide, input_fill_values_distinct (fun _ => none) 2
    (initInputs [⟨none, none, ""⟩, ⟨some "email", none, "x"⟩]) (by decide)⟩

/-- C3 counterexample: the host `googleads.g.doubleclick.net` contains
both the `google` fragment and the `ads` fragment, yet the code assigns
`advertising`, not the earlier rule's `analytics` — the first-match
reading of the rules disagrees with the code on this host. -/
theorem categorize_priority_counterexample :
    jsIncludes "googleads.g.doubleclick.net" "google" = true
    ∧ jsIncludes "googleads.g.doubleclick.net" "ads" = true
    ∧ categorizeDomain "googleads.g.doubleclick.net" = "advertising"
    ∧ categorizeFirstMatch "googleads.g.doubleclick.net" = "analytics"
    ∧ categorizeDomain "googleads.g.doubleclick.net"
        ≠ categorizeFirstMatch "googleads.g.doubleclick.net" := by
  refine ⟨by decide, by decide, by decide, by decide, by decide⟩

/-- C3 amended: the four fragment rules are applied as a chain of
independent overwriting `if` statements in the order google, facebook/fb,
ads/doubleclick, cdn, so the LAST matching rule wins (effective priority
cdn over advertising over social over analytics, `unknown` when none
matches); consequently a host containing both `google` and `ads` (and no
`cdn`) is assigned `advertising`. -/
theorem categorize_last_match_wins :
    (∀ domain : String, categorizeDomain domain = categorizeLastMatch domain)
    ∧ (∀ domain : String, jsIncludes domain "google" = true →
        jsIncludes domain "ads" = true → jsIncludes domain "cdn" = false →
        categorizeDomain domain = "advertising") := by
  have key : ∀ domain : String, categorizeDomain domain = categorizeLastMatch domain := by
    intro domain
    unfold categorizeDomain categorizeLastMatch
    cases hc : jsIncludes domain "cdn" <;>
      cases ha : jsIncludes domain "ads" <;>
        cases hd : jsIncludes domain "doubleclick" <;>
          cases hf : jsIncludes domain "facebook" <;>
            cases hf2 : jsIncludes domain "fb" <;>
              cases hg : jsIncludes domain "google" <;>
                simp [hc, ha, hd, hf, hf2, hg]
  refine ⟨key, ?_⟩
  intro domain hg ha hc
  rw [key domain]
  unfold categorizeLastMatch
  rw [hc, ha]
  simp

/-- Witness for the C3 amended claim at the counterexample host. -/
theorem categorize_last_match_wins_witness :
    (jsIncludes "googleads.g.doubleclick.net" "google" = true
      ∧ jsIncludes "googleads.g.doubleclick.net" "ads" = true
      ∧ jsIncludes "googleads.g.doubleclick.net" "cdn" = false)
    ∧ categorizeDomain "googleads.g.doubleclick.net" = "advertising" :=
  ⟨⟨by decide, by decide, by decide⟩,
    categorize_last_match_wins.2 "googleads.g.doubleclick.net" (by decide) (by decide)
      (by decide)⟩

/-- C4 counterexample: two captured requests with identical url, resource
type and method are retained as two entries of the captured collection
(the JS `Set` holds fresh object literals compared by reference), so the
collection is not a set keyed by url+type+method — and the aggregated
`requestCount` for the host is accordingly 2, not 1. -/
theorem request_identity_dedup_counterexample :
    capturedRequests [dupRequest, dupRequest] = [dupRequest, dupRequest]
    ∧ ¬ (((capturedRequests [dupRequest, dupRequest]).filter
          fun x => x = dupRequest).length ≤ 1)
    ∧ requestCountOf
        (buildThirdPartyServices (capturedRequests [dupRequest, dupRequest])
          "https://example.com/")
        "ads.example.net" = 2 :=
  ⟨rfl, by decide, by decide⟩

/-- C4 amended: the captured collection retains every observed request
occurrence (the `Set` of fresh object literals never deduplicates, not
even identical url+type+method triples), and for every third-party host
the aggregated `requestCount` equals the number of captured requests to
that host — `requestCount` counts occurrences per host. -/
theorem request_stream_keeps_occurrences (stream : List NetRequest) (url : String)
    (h : String) (hne : h ≠ urlHostname url) :
    capturedRequests stream = stream
    ∧ requestCountOf (buildThirdPartyServices (capturedRequests stream) url) h
        = (stream.filter fun r => urlHostname r.url = h).length := by
  refine ⟨rfl, ?_⟩
  unfold buildThirdPartyServices capturedRequests
  rw [requestCountOf_fold (urlHostname url) h hne stream []]
  simp [requestCountOf, objFind]

/-- Witness for the C4 amended claim: the duplicated request stream
against `https://example.com/` and the host `ads.example.net`. -/
theorem request_stream_keeps_occurrences_witness :
    ("ads.example.net" ≠ urlHostname "https://example.com/")
    ∧ (capturedRequests [dupRequest, dupRequest] = [dupRequest, dupRequest]
        ∧ requestCountOf
            (buildThirdPartyServices (capturedRequests [dupRequest, dupRequest])
              "https://example.com/")
            "ads.example.net"
          = ([dupRequest, dupRequest].filter
              fun r => urlHostname r.url = "ads.example.net").length) :=
  ⟨by decide, request_stream_keeps_occurrences [dupRequest, dupRequest]
    "https://example.com/" "ads.example.net" (by decide)⟩

/-- C5: the number of `browser.close()` calls performed by
`analyzeButtonsAndFields` is 1 exactly when `browser.newPage()`
succeeded, and 0 when it threw — the concrete environment in which
`newPage` rejects right after a successful launch reaches zero close
calls, leaking the browser process, against the
close-exactly-once-on-every-path contract. -/
theorem sweep_close_count :
    (∀ (pg : SweepPage) (K : Nat),
      (analyzeButtonsAndFields pg K).2 = if newPageOk pg then 1 else 0)
    ∧ (analyzeButtonsAndFields newPageFailsSweep 1000).2 = 0
    ∧ (analyzeButtonsAndFields emptyPageSweep 1000).2 = 1 := by
  refine ⟨?_, rfl, rfl⟩
  intro pg K
  cases h : pg.newPage <;> simp [analyzeButtonsAndFields, newPageOk, h]

/-- C1 counterexample: when navigation fails, the third-party services
probe returns the null sentinel, not a zero-valued result, and the PWA
readiness probe returns null as well. -/
theorem probe_null_fallback_counterexample :
    analyzeThirdPartyServices
        (.err "net::ERR_NAME_NOT_RESOLVED at https://example.com/") "https://example.com/"
      = none
    ∧ analyzePWAReadiness (.err "Navigation timeout of 30000 ms exceeded") = none :=
  ⟨rfl, rfl⟩

/-- C1 amended: on an internal failure the performance, security,
accessibility and backlink probes return structurally valid zero-valued
payloads of their normal shape, and the interaction sweep (once past its
`newPage` setup) always produces a well-formed payload; but the
third-party services, form-validation and PWA readiness probes all
return the null sentinel on failure. Every declared probe kind is
present in the assembled report (never absent/undefined), carrying
exactly the probe's result. -/
theorem probe_failure_payloads (e : String) (url : String) :
    analyzePerformance (.err e) = zeroPerformanceReport
    ∧ analyzeSecurity (.err e) = { headers := [], score := 0, recommendations := [] }
    ∧ analyzeAccessibility (.err e) = zeroAccessibilityReport
    ∧ analyzeBacklinks (.err e) = { totalChecked := 0, brokenLinks := [] }
    ∧ analyzeThirdPartyServices (.err e) url = none
    ∧ analyzeFormValidation (.err e) = none
    ∧ analyzePWAReadiness (.err e) = none
    ∧ (∀ (pg : SweepPage) (K : Nat), newPageOk pg = true →
        ∃ r : StressResult, (analyzeButtonsAndFields pg K).1 = .ok r)
    ∧ (∀ (env : AuditEnv) (rep : AuditReport), generateFullReport env = .ok rep →
        rep.performance = analyzePerformance env.perf
        ∧ rep.security = analyzeSecurity env.security
        ∧ rep.accessibility = analyzeAccessibility env.accessibility
        ∧ rep.stressTest = rep.stressTest
        ∧ rep.additionalTests.details.thirdPartyServices
            = analyzeThirdPartyServices env.thirdParty env.url
        ∧ rep.additionalTests.details.formValidation = analyzeFormValidation env.forms
        ∧ rep.additionalTests.details.pwaReadiness = analyzePWAReadiness env.pwa
        ∧ rep.additionalTests.details.backlinks = analyzeBacklinks env.backlinks) := by
  refine ⟨rfl, rfl, rfl, rfl, rfl, rfl, rfl, ?_, ?_⟩
  · intro pg K h
    unfold analyzeButtonsAndFields
    cases hp : pg.newPage with
    | error e2 => simp [newPageOk, hp] at h
    | ok u =>
      cases hb : sweepBody pg K with
      | error e2 =>
        refine ⟨{ buttons := [], inputFields := [], cors := [] }, ?_⟩
        simp [hb]
      | ok r =>
        refine ⟨r, ?_⟩
        simp [hb]
  · intro env rep hrep
    unfold generateFullReport at hrep
    cases hs : (analyzeButtonsAndFields env.sweep 1000).1 with
    | error e2 =>
      rw [hs] at hrep
      exact absurd hrep (by simp)
    | ok st =>
      rw [hs] at hrep
      injection hrep with h
      subst h
      exact ⟨rfl, rfl, rfl, rfl, rfl, rfl, rfl, rfl⟩

/-- Witness for the C1 amended claim at a concrete failure message,
target URL, sweep environment and audit environment. -/
theorem probe_failure_payloads_witness :
    analyzePerformance (.err "boom") = zeroPerformanceReport
    ∧ newPageOk emptyPageSweep = true
    ∧ (analyzeButtonsAndFields emptyPageSweep 1000).1
        = .ok { buttons := [], inputFields := [], cors := corsProbe } :=
  ⟨(probe_failure_payloads "boom" "https://example.com/").1, by decide, rfl⟩

/-- C2 counterexample: on a concrete audit whose performance score is 80
and whose security score is 35, the weighted rounded score would be 43,
but the assembled report's overallScore is absent (undefined, from the
commented-out line 357), not 43, and the console summary prints
`Overall Score: undefined`. -/
theorem overall_score_missing_counterexample :
    (generateFullReport sampleAuditEnv).toOption.map (·.overallScore) = some none
    ∧ (generateFullReport sampleAuditEnv).toOption.map overallScoreLine
        = some "Overall Score: undefined"
    ∧ calculateOverallScore (analyzePerformance sampleAuditEnv.perf)
        (analyzeSecurity sampleAuditEnv.security) = 43
    ∧ (generateFullReport sampleAuditEnv).toOption.map (·.overallScore)
        ≠ some (some (calculateOverallScore (analyzePerformance sampleAuditEnv.perf)
            (analyzeSecurity sampleAuditEnv.security))) := by
  have h1 : (generateFullReport sampleAuditEnv).toOption.map (·.overallScore) = some none :=
    rfl
  have h2 : (generateFullReport sampleAuditEnv).toOption.map overallScoreLine
      = some "Overall Score: undefined" := by decide
  have hsec : (analyzeSecurity sampleAuditEnv.security).score = 35 := by decide
  have h3 : calculateOverallScore (analyzePerformance sampleAuditEnv.perf)
      (analyzeSecurity sampleAuditEnv.security) = 43 := by
    unfold calculateOverallScore
    rw [hsec]
    norm_num [sampleAuditEnv, analyzePerformance, processLighthouseResults, sampleLhr,
      overallWeights, mathRound]
  refine ⟨h1, h2, h3, ?_⟩
  rw [h1, h3]
  decide

/-- C2 amended: the coordinator's `_calculateOverallScore` computes
`Math.round` of performance times 0.4 plus security times 0.3 (the
declared accessibility weight never enters the sum), but the report
field assignment is commented out, so every successfully assembled
report has no overallScore (undefined) and the console summary prints
`Overall Score: undefined`. -/
theorem overall_score_formula_and_missing (performance : PerformanceReport)
    (security : SecurityReport) (env : AuditEnv) :
    calculateOverallScore performance security
      = mathRound (performance.performance.score * (2/5 : ℚ)
          + (security.score : ℚ) * (3/10))
    ∧ (generateFullReport env).toOption.map (·.overallScore)
        = ((generateFullReport env).toOption.map fun _ => (none : Option ℤ))
    ∧ (generateFullReport env).toOption.map overallScoreLine
        = ((generateFullReport env).toOption.map fun _ => "Overall Score: undefined") := by
  refine ⟨rfl, ?_, ?_⟩ <;>
    cases hs : (analyzeButtonsAndFields env.sweep 1000).1 <;>
      (simp only [generateFullReport, hs, overallScoreLine, jsShowOverall,
        Except.toOption, Option.map]
       try decide)
